import Mathlib

/-!
Shallow embedding of the qri dataset-reference subsystem: the dscache
event handler and its update operations (src/dscache/dscache.go), the
in-memory repo resolver (src/repo/mem_repo.go), the logsync HTTP client
and server handler (src/logbook/logsync/http.go), and the workflow store
listing contract (src/automation/spec/workflow_store.go).

Go machine integers (int, int32, int64) are modelled as Lean `Int`;
strings as `String`; nil pointers as `Option`; fallible calls as
`Except`/`Option` results; the error messages kept verbatim.
-/

namespace Qri

/-- Error sentinels surfaced by the dscache / dsref layers. -/
inductive DsErr where
  | refNotFound
  | noDscache
  | invalidProfileID
  | other (msg : String)
deriving DecidableEq, Repr

/-- dsref.VersionInfo: the event payload / lookup result record.
`commitTime` is the Unix-seconds value (Go stores a time.Time; the code
only ever reads and writes it through `.Unix()` seconds). -/
structure VersionInfo where
  initID : String := ""
  profileID : String := ""
  username : String := ""
  name : String := ""
  path : String := ""
  published : Bool := false
  foreign : Bool := false
  metaTitle : String := ""
  themeList : String := ""
  bodySize : Int := 0
  bodyRows : Int := 0
  bodyFormat : String := ""
  numErrors : Int := 0
  commitTime : Int := 0
  commitCount : Int := 0
  fsiPath : String := ""
deriving DecidableEq, Repr

/-- dscachefb.RefEntryInfo: one serialized `Refs` entry of the flat
buffer. -/
structure RefEntryInfo where
  initID : String := ""
  profileID : String := ""
  topIndex : Int := 0
  cursorIndex : Int := 0
  prettyName : String := ""
  metaTitle : String := ""
  themeList : String := ""
  bodySize : Int := 0
  bodyRows : Int := 0
  bodyFormat : String := ""
  numErrors : Int := 0
  commitTime : Int := 0
  headRef : String := ""
  fsiPath : String := ""
  published : Bool := false
  foreign : Bool := false
  commitCount : Int := 0
deriving DecidableEq, Repr

/-- dscachefb.UserAssoc: one serialized `Users` entry. -/
structure UserAssoc where
  username : String := ""
  profileID : String := ""
deriving DecidableEq, Repr

/-- The deserialized content of the dscache flat buffer (`d.Root`):
the `Users` list and the `Refs` list, in serialized order. -/
structure DscacheRoot where
  users : List UserAssoc := []
  refs : List RefEntryInfo := []
deriving DecidableEq, Repr

/-- The Dscache struct. `root = none` models `d.Root == nil` (a dscache
with no constructed data). A nil *pointer* receiver is modelled as
`none : Option Dscache` at the call sites that are nil-callable. -/
structure Dscache where
  filename : String := ""
  root : Option DscacheRoot := none
  createNewEnabled : Bool := false
deriving DecidableEq, Repr

/-- The zero RefEntryInfo: what a Go flatbuffer accessor leaves behind
when asked for an out-of-range index (the accessor returns false and the
struct stays zeroed; dscache.go ignores that return value). -/
def zeroEntry : RefEntryInfo := {}

/-- dscache.go `lengthOfProfileID`. -/
def lengthOfProfileID : Nat := 46

/-- dscache.go `validateProfileID`: length must be exactly 46. -/
def validateProfileID (profileID : String) : Bool :=
  profileID.length == lengthOfProfileID

/-- dscache.go `IsEmpty`, nil-callable: true for a nil receiver or a nil
`Root`. -/
def Dscache.isEmptyOpt (d : Option Dscache) : Bool :=
  match d with
  | none => true
  | some c => c.root.isNone

/-- dscache.go `convertEntryToVersionInfo`: the field-by-field
conversion from a flat-buffer entry to a dsref.VersionInfo. Fields the
Go struct literal does not mention (username, fsiPath) are left at their
zero value. -/
def convertEntryToVersionInfo (r : RefEntryInfo) : VersionInfo :=
  { initID := r.initID
    profileID := r.profileID
    name := r.prettyName
    path := r.headRef
    published := r.published
    foreign := r.foreign
    metaTitle := r.metaTitle
    themeList := r.themeList
    bodySize := r.bodySize
    bodyRows := r.bodyRows
    bodyFormat := r.bodyFormat
    numErrors := r.numErrors
    commitTime := r.commitTime
    commitCount := r.commitCount }

/-- Modelled from the spec: the dscache `Builder` (package dscache, not
under src/; only its callers in dscache.go are). `AddDsVersionInfoWithIndexes`
serializes a VersionInfo as a new `Refs` entry carrying the given
topIndex/cursorIndex; per the spec the entries are written field by
field into the flat buffer. -/
def addDsVersionInfoWithIndexes (vi : VersionInfo) (topIndex cursorIndex : Int) :
    RefEntryInfo :=
  { initID := vi.initID
    profileID := vi.profileID
    topIndex := topIndex
    cursorIndex := cursorIndex
    prettyName := vi.name
    metaTitle := vi.metaTitle
    themeList := vi.themeList
    bodySize := vi.bodySize
    bodyRows := vi.bodyRows
    bodyFormat := vi.bodyFormat
    numErrors := vi.numErrors
    commitTime := vi.commitTime
    headRef := vi.path
    fsiPath := vi.fsiPath
    published := vi.published
    foreign := vi.foreign
    commitCount := vi.commitCount }

/-- Modelled from the spec: `Builder.AddDsVersionInfo` appends a new
`Refs` entry "with zeroed indexes". -/
def addDsVersionInfo (vi : VersionInfo) : RefEntryInfo :=
  addDsVersionInfoWithIndexes vi 0 0

/-- Filesystem actions, used to state how `save` persists the buffer. -/
inductive FsOp where
  | write (name : String)
  | rename (src dst : String)
deriving DecidableEq, Repr

/-- dscache.go `save`: with an empty filename it logs and does nothing;
otherwise it calls ioutil.WriteFile on the cache filename directly. -/
def Dscache.saveOps (d : Dscache) : List FsOp :=
  if d.filename = "" then [] else [FsOp.write d.filename]

/-- The error returned by `save`: none when saving is disabled
(empty filename), otherwise whatever the WriteFile call returns.
`persistErr` stands for the outcome of the underlying WriteFile. -/
def Dscache.saveErr (persistErr : Option DsErr) (d : Dscache) : Option DsErr :=
  if d.filename = "" then none else persistErr

/-- dscache.go `updateInitDataset`. Returns the dscache state after the
call together with the error the method returns. The non-empty branch
copies users with a loop bounded by `users.length`, then copies refs
with a second loop that is *also* bounded by `users.length` (reading
`Refs(&r, i)`, which zero-fills past the end), then appends the new
entry built from the event's initID/profileID/name. `Assign`'s error
(which is `save`'s) is discarded by the Go code. -/
def updateInitDataset (d : Dscache) (act : VersionInfo) :
    Dscache × Option DsErr :=
  match d.root with
  | none =>
    if !d.createNewEnabled then
      (d, none)
    else if !validateProfileID act.profileID then
      (d, some DsErr.invalidProfileID)
    else
      let root : DscacheRoot :=
        { users := [{ username := act.username, profileID := act.profileID }]
          refs := [addDsVersionInfo
            { initID := act.initID, profileID := act.profileID, name := act.name }] }
      ({ d with root := some root }, none)
  | some root =>
    let users := root.users.map fun u =>
      { username := u.username, profileID := u.profileID : UserAssoc }
    let copiedRefs := (List.range root.users.length).map fun i =>
      let r := root.refs.getD i zeroEntry
      addDsVersionInfoWithIndexes (convertEntryToVersionInfo r) r.topIndex r.cursorIndex
    let newEntry := addDsVersionInfo
      { initID := act.initID, profileID := act.profileID, name := act.name }
    ({ d with root := some { users := users, refs := copiedRefs ++ [newEntry] } }, none)

/-- dscache.go `updateChangeCursor`'s replacement function: starting
from the existing entry, it overrides only topIndex, cursorIndex,
metaTitle, commitTime, bodySize, bodyRows, numErrors and headRef with
values from the event payload (topIndex and cursorIndex both get
`act.CommitCount`; headRef gets `act.Path`). -/
def replaceCursorEntry (act : VersionInfo) (r : RefEntryInfo) : RefEntryInfo :=
  { r with
    topIndex := act.commitCount
    cursorIndex := act.commitCount
    metaTitle := act.metaTitle
    commitTime := act.commitTime
    bodySize := act.bodySize
    bodyRows := act.bodyRows
    numErrors := act.numErrors
    headRef := act.path }

/-- dscache.go `updateChangeCursor`: on an empty cache return
ErrNoDscache; otherwise rebuild the buffer, copying users unchanged and
copying refs while replacing every entry whose InitID matches the
payload (`copyReferenceListWithReplacement` is not under src/; modelled
from the spec: "Locate entry by InitID; rebuild cache replacing that
entry"). The in-memory root is updated before `save`, so the state
change survives a failed save; the method returns `save`'s error. -/
def updateChangeCursor (persistErr : Option DsErr) (d : Dscache)
    (act : VersionInfo) : Dscache × Option DsErr :=
  match d.root with
  | none => (d, some DsErr.noDscache)
  | some root =>
    let root2 : DscacheRoot :=
      { users := root.users
        refs := root.refs.map fun r =>
          if r.initID = act.initID then replaceCursorEntry act r else r }
    let d2 := { d with root := some root2 }
    (d2, d2.saveErr persistErr)

/-- dscache.go `updateDeleteDataset`: on an empty cache return
ErrNoDscache; otherwise rebuild the buffer copying users unchanged and
omitting every ref whose InitID matches (the nil replacement function
passed to `copyReferenceListWithReplacement` omits the matching entry;
modelled from the spec: "Rebuild cache omitting the matching InitID").
Returns `save`'s error. -/
def updateDeleteDataset (persistErr : Option DsErr) (d : Dscache)
    (initID : String) : Dscache × Option DsErr :=
  match d.root with
  | none => (d, some DsErr.noDscache)
  | some root =>
    let root2 : DscacheRoot :=
      { users := root.users
        refs := root.refs.filter fun r => r.initID != initID }
    let d2 := { d with root := some root2 }
    (d2, d2.saveErr persistErr)

/-- Event types the dscache subscribes to. -/
inductive EventType where
  | datasetNameInit
  | logbookWriteCommit
  | datasetDeleteAll
  | datasetRename
  | datasetCreateLink
deriving DecidableEq, Repr

/-- An event payload is a Go interface value; the handler type-asserts
it to dsref.VersionInfo or string. -/
inductive EventPayload where
  | vinfo (v : VersionInfo)
  | str (s : String)
  | otherPayload
deriving DecidableEq, Repr

/-- A bus event: a type tag and a payload. -/
structure Event where
  type : EventType
  payload : EventPayload
deriving DecidableEq, Repr

/-- dscache.go `handler`: dispatch on the event type; failed payload
type assertions log and return nil; errors from the update methods
other than ErrNoDscache are logged; every branch returns nil to the
bus. The ETDatasetRename case is an empty TODO stub and the switch has
no ETDatasetCreateLink case at all, so both leave the cache unchanged.
Returns the dscache state after the call and the error reported to the
bus. -/
def handler (persistErr : Option DsErr) (d : Dscache) (e : Event) :
    Dscache × Option DsErr :=
  match e.type with
  | EventType.datasetNameInit =>
    match e.payload with
    | EventPayload.vinfo act => ((updateInitDataset d act).1, none)
    | _ => (d, none)
  | EventType.logbookWriteCommit =>
    match e.payload with
    | EventPayload.vinfo act => ((updateChangeCursor persistErr d act).1, none)
    | _ => (d, none)
  | EventType.datasetDeleteAll =>
    match e.payload with
    | EventPayload.str initID => ((updateDeleteDataset persistErr d initID).1, none)
    | _ => (d, none)
  | EventType.datasetRename => (d, none)
  | EventType.datasetCreateLink => (d, none)

/-- A dsref.Ref: any subset of the fields may be populated. -/
structure Ref where
  username : String := ""
  profileID : String := ""
  name : String := ""
  initID : String := ""
  path : String := ""
deriving DecidableEq, Repr

/-- dscache.go `completeRef`: scan `Refs` for the first entry whose
InitID equals the ref's, fill path/profileID/name from it, then scan
`Users` for the first association with that profileID to fill the
username; ErrRefNotFound when no entry matches. -/
def completeRef (root : DscacheRoot) (ref : Ref) : Except DsErr (String × Ref) :=
  match root.refs.find? (fun r => r.initID == ref.initID) with
  | some r =>
    let ref1 := { ref with path := r.headRef, profileID := r.profileID,
                           name := r.prettyName }
    let ref2 :=
      match root.users.find? (fun u => u.profileID == r.profileID) with
      | some u => { ref1 with username := u.username }
      | none => ref1
    Except.ok ("", ref2)
  | none => Except.error DsErr.refNotFound

/-- dscache.go `LookupByName`: translate the username to a profileID
via `Users` (keeping a pre-set profileID when the username is unknown),
fail on an empty profileID, then find the entry with that profileID and
pretty name. -/
def lookupByName (root : DscacheRoot) (ref : Ref) : Except DsErr VersionInfo :=
  let pid :=
    match root.users.find? (fun u => u.username == ref.username) with
    | some u => u.profileID
    | none => ref.profileID
  if pid = "" then
    Except.error (DsErr.other ("unknown username " ++ ref.username))
  else
    match root.refs.find? (fun r => r.profileID == pid && r.prettyName == ref.name) with
    | some r => Except.ok (convertEntryToVersionInfo r)
    | none =>
      Except.error (DsErr.other ("dataset ref not found " ++ ref.username ++ "/" ++ ref.name))

/-- dscache.go `ResolveRef`, nil-callable (hence the `Option Dscache`
receiver): an empty or nil dscache yields ErrRefNotFound; a ref with an
InitID goes through `completeRef`; otherwise `LookupByName`, whose
failure is mapped to ErrRefNotFound, fills initID/profileID and (when
empty) path. Returns the (source-hint, updated ref) pair. -/
def Dscache.resolveRef (d : Option Dscache) (ref : Ref) :
    Except DsErr (String × Ref) :=
  match d with
  | none => Except.error DsErr.refNotFound
  | some c =>
    match c.root with
    | none => Except.error DsErr.refNotFound
    | some root =>
      if ref.initID ≠ "" then
        completeRef root ref
      else
        match lookupByName root ref with
        | Except.error _ => Except.error DsErr.refNotFound
        | Except.ok vi =>
          let ref1 := { ref with initID := vi.initID, profileID := vi.profileID }
          let ref2 := if ref1.path = "" then { ref1 with path := vi.path } else ref1
          Except.ok ("", ref2)

/-- mem_repo.go `MemRepo`: for resolution purposes, the repo holds an
optional logbook whose `ResolveRef` it delegates to (the dscache
delegation is commented out in the source). -/
structure MemRepo where
  logbook : Option (Ref → Except DsErr (String × Ref))

/-- mem_repo.go `ResolveRef`: a nil receiver returns ErrRefNotFound;
a repo without a logbook fails with the "cannot resolve local
references without logbook" error; otherwise it delegates to the
logbook. -/
def MemRepo.resolveRef (r : Option MemRepo) (ref : Ref) :
    Except DsErr (String × Ref) :=
  match r with
  | none => Except.error DsErr.refNotFound
  | some repo =>
    match repo.logbook with
    | none => Except.error (DsErr.other "cannot resolve local references without logbook")
    | some resolve => resolve ref

/-! Logsync HTTP (src/logbook/logsync/http.go). -/

namespace Logsync

/-- The HTTP methods the handler switches on. -/
inductive Method where
  | put
  | get
  | del
  | otherMethod
deriving DecidableEq, Repr

/-- An error returned by the Logsync core operations (`lsync.put`,
`lsync.get`, `lsync.del`, which are not under src/): either the named
ref is unknown to the server, or some other failure (verification,
merge). Modelled from the spec, which distinguishes unknown-ref from
other failures for the purposes of return codes. -/
inductive LsErr where
  | notFound
  | failed (msg : String)
deriving DecidableEq, Repr

/-- One request as the handler sees it: whether
`senderFromHTTPHeaders` succeeded (AuthorID/PubKey headers parse and
unmarshal), the method, whether `repo.ParseDatasetRef` on the `ref`
form value succeeded, and the result of the dispatched Logsync core
call (`none` = success). -/
structure HandlerInput where
  senderOk : Bool
  method : Method
  refParseOk : Bool
  opResult : Option LsErr
deriving DecidableEq, Repr

/-- HTTPHandler: the status code written for a request. A failed sender
header parse writes 400. PUT: any `lsync.put` error writes 400, else
200. GET/DELETE: a ref parse failure writes 400; any error from
`lsync.get`/`lsync.del` writes 400; else 200. Any other method falls
through the switch and Go's implicit WriteHeader yields 200. -/
def httpHandler (inp : HandlerInput) : Nat :=
  if !inp.senderOk then 400
  else
    match inp.method with
    | Method.put =>
      match inp.opResult with
      | some _ => 400
      | none => 200
    | Method.get =>
      if !inp.refParseOk then 400
      else
        match inp.opResult with
        | some _ => 400
        | none => 200
    | Method.del =>
      if !inp.refParseOk then 400
      else
        match inp.opResult with
        | some _ => 400
        | none => 200
    | Method.otherMethod => 200

/-- An http.Response as far as the client code reads it. -/
structure Response where
  statusCode : Nat
  body : String
deriving DecidableEq, Repr

/-- The observable outcome of a client call: success, a returned error
value, or a runtime nil-pointer dereference (Go panic). -/
inductive ClientOutcome where
  | ok
  | errMsg (s : String)
  | nilDeref
deriving DecidableEq, Repr

/-- HTTPClient.put, given the `(res, err)` pair that
`http.DefaultClient.Do` returned (`res = none` models a nil response).
The code reads `res.StatusCode` before ever consulting `err`, so a nil
response is dereferenced: a panic. With a response, a non-200 status
returns the response body as an error (the body read is modelled as
succeeding), and a 200 returns nil. -/
def clientPut (res : Option Response) (err : Option String) : ClientOutcome :=
  match res with
  | none => ClientOutcome.nilDeref
  | some r =>
    if r.statusCode ≠ 200 then ClientOutcome.errMsg r.body
    else ClientOutcome.ok

/-- HTTPClient.del, same shape as `clientPut`: `res.StatusCode` is read
before `err` is checked, so a nil response panics; on a response the
non-200 branch returns the body, and otherwise the function returns
`err` as-is. -/
def clientDel (res : Option Response) (err : Option String) : ClientOutcome :=
  match res with
  | none => ClientOutcome.nilDeref
  | some r =>
    if r.statusCode ≠ 200 then ClientOutcome.errMsg r.body
    else
      match err with
      | some e => ClientOutcome.errMsg e
      | none => ClientOutcome.ok

/-- HTTPClient.get, for contrast: it checks `err` before touching the
response, so a transport error is returned, never dereferenced. -/
def clientGet (res : Option Response) (err : Option String) : ClientOutcome :=
  match err with
  | some e => ClientOutcome.errMsg e
  | none =>
    match res with
    | none => ClientOutcome.nilDeref
    | some r =>
      if r.statusCode ≠ 200 then ClientOutcome.errMsg r.body
      else ClientOutcome.ok

end Logsync

/-! Workflow store listing (src/automation/spec/workflow_store.go).
The workflow.Store implementation and params.List are not under src/;
only the spec harness AssertWorkflowLister that pins their behavior is.
The listing operation is modelled from the spec below. -/

namespace Workflow

/-- A stored workflow, reduced to the fields the listing contract
observes. -/
structure Workflow where
  id : String := ""
  initID : String := ""
  ownerID : String := ""
  active : Bool := false
deriving DecidableEq, Repr

/-- Modelled from the spec: the workflow.Store listing primitive
(workflow.Store implementations are not under src/). Per the spec and
AssertWorkflowLister: `limit = -1` returns all items, `limit = 0`
returns an empty list, an offset past the end returns an empty list
without error, a limit below -1 fails with "limit of <n> is out of
bounds", and a negative offset fails with "offset of <n> is out of
bounds"; otherwise the window of `limit` items starting at `offset` of
the stored, newest-first order is returned. -/
def listWithOffsetLimit (items : List Workflow) (offset limit : Int) :
    Except String (List Workflow) :=
  if limit < -1 then
    Except.error ("limit of " ++ toString limit ++ " is out of bounds")
  else if offset < 0 then
    Except.error ("offset of " ++ toString offset ++ " is out of bounds")
  else if limit = -1 then
    Except.ok (items.drop offset.toNat)
  else
    Except.ok ((items.drop offset.toNat).take limit.toNat)

/-- Modelled from the spec: `Store.List` paginates over all stored
workflows (AssertWorkflowLister passes an owner id the store does not
filter by). -/
def listStore (stored : List Workflow) (offset limit : Int) :
    Except String (List Workflow) :=
  listWithOffsetLimit stored offset limit

/-- Modelled from the spec: `Store.ListDeployed` paginates over the
stored workflows whose Active flag is set. -/
def listDeployed (stored : List Workflow) (offset limit : Int) :
    Except String (List Workflow) :=
  listWithOffsetLimit (stored.filter (fun w => w.active)) offset limit

end Workflow

/-! Concrete fixtures used by counterexamples and witnesses. -/

/-- A 46-character profileID (the valid length). -/
def pid46 : String := "0123456789012345678901234567890123456789012345"

/-- Fixture: a cached `Refs` entry for dataset ds1. -/
def entryDs1 : RefEntryInfo := { initID := "ds1", profileID := pid46, prettyName := "first" }

/-- Fixture: a cached `Refs` entry for dataset ds2. -/
def entryDs2 : RefEntryInfo := { initID := "ds2", profileID := pid46, prettyName := "second" }

/-- Fixture: a non-empty dscache with one user and two `Refs` entries. -/
def cacheTwoRefs : Dscache :=
  { filename := ""
    root := some { users := [{ username := "alice", profileID := pid46 }]
                   refs := [entryDs1, entryDs2] } }

/-- Fixture: an ETDatasetNameInit payload for a third dataset ds3. -/
def initActDs3 : VersionInfo :=
  { initID := "ds3", profileID := pid46, username := "alice", name := "third" }

/-- **C1.** The claim says handling ETDatasetNameInit on a non-empty
dscache preserves every existing `Refs` entry and appends the new one.
The source's copy loop for refs is bounded by the number of *users*
(dscache.go line 338 iterates to `UsersLength` while reading `Refs`),
so with one user and two cached refs the entry for ds2 is dropped: the
rebuilt cache lists only ds1 and the new ds3. -/
theorem updateInitDataset_drops_refs_beyond_users :
    ((handler none cacheTwoRefs
        { type := EventType.datasetNameInit,
          payload := EventPayload.vinfo initActDs3 }).1.root.map
      fun r => r.refs.map RefEntryInfo.initID) = some ["ds1", "ds3"] ∧
    (cacheTwoRefs.root.map fun r => r.refs.map RefEntryInfo.initID) =
      some ["ds1", "ds2"] := by
  constructor <;> rfl

/-- **C2.** The claim says the ETDatasetRename handler rebuilds the
cache replacing the matching entry's PrettyName. The source's
ETDatasetRename case is an empty TODO stub ("TODO(dustmop): Handle
renames"): for every persist outcome, cache state and payload, the
handler leaves the dscache exactly unchanged and returns nil. -/
theorem handler_rename_is_stub (pe : Option DsErr) (d : Dscache) (p : EventPayload) :
    handler pe d { type := EventType.datasetRename, payload := p } = (d, none) := rfl

/-- **C4.** ResolveRef is nil-callable: on a nil dscache receiver, on a
dscache whose Root is nil, and on a nil MemRepo receiver, ResolveRef
returns ErrRefNotFound (no dereference of the nil receiver happens). -/
theorem resolveRef_nil_returns_not_found (ref : Ref) (d : Dscache)
    (h : d.root = none) :
    Dscache.resolveRef none ref = Except.error DsErr.refNotFound ∧
    Dscache.resolveRef (some d) ref = Except.error DsErr.refNotFound ∧
    MemRepo.resolveRef none ref = Except.error DsErr.refNotFound := by
  refine ⟨rfl, ?_, rfl⟩
  simp [Dscache.resolveRef, h]

/-- Witness for C4 at a concrete ref and a concrete empty dscache. -/
theorem resolveRef_nil_returns_not_found_witness :
    ({ } : Dscache).root = none ∧
    (Dscache.resolveRef none ({ } : Ref) = Except.error DsErr.refNotFound ∧
     Dscache.resolveRef (some ({ } : Dscache)) ({ } : Ref) =
       Except.error DsErr.refNotFound ∧
     MemRepo.resolveRef none ({ } : Ref) = Except.error DsErr.refNotFound) :=
  ⟨rfl, resolveRef_nil_returns_not_found { } { } rfl⟩

/-- **C10.** When `http.DefaultClient.Do` returns a nil response
together with a transport error, HTTPClient.put and HTTPClient.del read
`res.StatusCode` before checking the error, so the call hits a nil
dereference (a panic) and in particular never returns the transport
error; HTTPClient.get, which checks the error first, returns it. -/
theorem client_put_del_nil_response_panics (e : String) :
    Logsync.clientPut none (some e) = Logsync.ClientOutcome.nilDeref ∧
    Logsync.clientDel none (some e) = Logsync.ClientOutcome.nilDeref ∧
    Logsync.clientPut none (some e) ≠ Logsync.ClientOutcome.errMsg e ∧
    Logsync.clientDel none (some e) ≠ Logsync.ClientOutcome.errMsg e ∧
    Logsync.clientGet none (some e) = Logsync.ClientOutcome.errMsg e := by
  refine ⟨rfl, rfl, ?_, ?_, rfl⟩ <;> simp [Logsync.clientPut, Logsync.clientDel]

/-- The ETLogbookWriteCommit event carrying a VersionInfo payload. -/
def commitEvent (act : VersionInfo) : Event :=
  ⟨EventType.logbookWriteCommit, EventPayload.vinfo act⟩

/-- The ETDatasetNameInit event carrying a VersionInfo payload. -/
def initEvent (act : VersionInfo) : Event :=
  ⟨EventType.datasetNameInit, EventPayload.vinfo act⟩

/-- The ETDatasetDeleteAll event carrying the InitID string payload. -/
def deleteEvent (initID : String) : Event :=
  ⟨EventType.datasetDeleteAll, EventPayload.str initID⟩

/-- **C3 counterexample.** The claim says a GET or DELETE naming a ref
unknown to the server yields 404 Not Found. In the source every error
from `lsync.get`/`lsync.del` is answered with `http.StatusBadRequest`:
a request with well-formed headers and ref whose lookup fails with
not-found gets status 400, not 404. -/
theorem httpHandler_unknown_ref_is_400 :
    Logsync.httpHandler ⟨true, Logsync.Method.get, true, some Logsync.LsErr.notFound⟩ = 400 ∧
    Logsync.httpHandler ⟨true, Logsync.Method.del, true, some Logsync.LsErr.notFound⟩ ≠ 404 := by
  constructor <;> decide

/-- **C3 amended.** Malformed author headers, an unparsable ref on
GET/DELETE, and every failure of the dispatched Logsync operation
(including an unknown ref) yield 400 Bad Request; success yields
200 OK. The handler never writes 404. -/
theorem httpHandler_status_codes (m : Logsync.Method) (refOk : Bool)
    (op : Option Logsync.LsErr) (e : Logsync.LsErr) :
    Logsync.httpHandler ⟨false, m, refOk, op⟩ = 400 ∧
    Logsync.httpHandler ⟨true, Logsync.Method.get, false, op⟩ = 400 ∧
    Logsync.httpHandler ⟨true, Logsync.Method.del, false, op⟩ = 400 ∧
    Logsync.httpHandler ⟨true, Logsync.Method.put, refOk, some e⟩ = 400 ∧
    Logsync.httpHandler ⟨true, Logsync.Method.get, true, some e⟩ = 400 ∧
    Logsync.httpHandler ⟨true, Logsync.Method.del, true, some e⟩ = 400 ∧
    Logsync.httpHandler ⟨true, Logsync.Method.put, refOk, none⟩ = 200 ∧
    Logsync.httpHandler ⟨true, Logsync.Method.get, true, none⟩ = 200 ∧
    Logsync.httpHandler ⟨true, Logsync.Method.del, true, none⟩ = 200 :=
  ⟨rfl, rfl, rfl, rfl, rfl, rfl, rfl, rfl, rfl⟩

/-- **C5.** Handling ETLogbookWriteCommit on a non-empty dscache
rebuilds the buffer keeping the users list and every non-matching entry
unchanged, and replacing each entry whose InitID matches the payload:
its TopIndex and CursorIndex become the payload's CommitCount, and
MetaTitle, CommitTime, BodySize, BodyRows, NumErrors and HeadRef are
taken from the payload; all its other fields (InitID, ProfileID,
PrettyName, ThemeList, BodyFormat, FsiPath, Published, Foreign) are
kept. -/
theorem updateChangeCursor_replaces_matching_entry (pe : Option DsErr)
    (d : Dscache) (root : DscacheRoot) (act : VersionInfo)
    (h : d.root = some root) :
    ((handler pe d (commitEvent act)).1).root = some
      ⟨root.users,
       root.refs.map fun r =>
         if r.initID = act.initID then
           { r with
             topIndex := act.commitCount
             cursorIndex := act.commitCount
             metaTitle := act.metaTitle
             commitTime := act.commitTime
             bodySize := act.bodySize
             bodyRows := act.bodyRows
             numErrors := act.numErrors
             headRef := act.path }
         else r⟩ := by
  simp [handler, commitEvent, updateChangeCursor, h, replaceCursorEntry]

/-- Fixture: the dscache root holding only the entry for dataset i1. -/
def rootI1 : DscacheRoot :=
  ⟨[⟨"alice", pid46⟩], [{ initID := "i1", profileID := pid46, prettyName := "world_bank" }]⟩

/-- Fixture: a dscache holding only dataset i1, before any commit. -/
def cacheI1 : Dscache := { root := some rootI1 }

/-- Fixture: the ETLogbookWriteCommit payload of i1's first commit. -/
def commitActI1 : VersionInfo :=
  { initID := "i1", path := "/hash/p1", metaTitle := "annual report",
    bodySize := 17, bodyRows := 2, commitTime := 100, commitCount := 1 }

/-- Witness for C5: after the first commit (CommitCount 1, path
"/hash/p1") the i1 entry has TopIndex 1, CursorIndex 1 and HeadRef
"/hash/p1", with BodyRows 2 from the payload. -/
theorem updateChangeCursor_replaces_matching_entry_witness :
    cacheI1.root = some rootI1 ∧
    ((handler none cacheI1 (commitEvent commitActI1)).1).root = some
      ⟨[⟨"alice", pid46⟩],
       [{ initID := "i1", profileID := pid46, topIndex := 1, cursorIndex := 1,
          prettyName := "world_bank", metaTitle := "annual report",
          bodySize := 17, bodyRows := 2, commitTime := 100,
          headRef := "/hash/p1" }]⟩ := by
  refine ⟨rfl, ?_⟩
  have h := updateChangeCursor_replaces_matching_entry none cacheI1 rootI1 commitActI1 rfl
  rw [h]
  rfl

/-- Fixture: a non-empty dscache with one user and one entry, used to
show the handler skips ProfileID validation on the non-empty path. -/
def cacheOneRef : Dscache :=
  { root := some ⟨[⟨"alice", pid46⟩],
                  [{ initID := "ds1", profileID := pid46, prettyName := "first" }]⟩ }

/-- Fixture: an ETDatasetNameInit payload whose ProfileID has length 5,
far from the required 46. -/
def initActBadProfile : VersionInfo :=
  { initID := "dsX", profileID := "short", username := "alice", name := "bad" }

/-- **C7 counterexample.** The claim says every ETDatasetNameInit with
a ProfileID of length ≠ 46 is rejected with ErrInvalidProfileID and no
entry is added, whether the cache is empty or not. On a non-empty
cache the source adds the entry without any validation: with the
5-character ProfileID "short" the update returns no error and the new
entry for dsX appears in the rebuilt cache. -/
theorem updateInitDataset_skips_validation_when_nonempty :
    validateProfileID "short" = false ∧
    (updateInitDataset cacheOneRef initActBadProfile).2 = none ∧
    ((updateInitDataset cacheOneRef initActBadProfile).1.root.map
      fun r => r.refs.map RefEntryInfo.initID) = some ["ds1", "dsX"] :=
  ⟨by decide, rfl, rfl⟩

/-- **C7 amended.** ProfileID validation happens only when an
ETDatasetNameInit arrives at an *empty* dscache with CreateNewEnabled
set: there a ProfileID of length ≠ 46 is rejected with
ErrInvalidProfileID and no entry is added (and with CreateNewEnabled
unset the event is ignored without error). On a non-empty dscache the
handler performs no ProfileID validation: it returns no error and
appends the new entry as the last ref regardless of the ProfileID. -/
theorem updateInitDataset_validation_only_on_create (act : VersionInfo)
    (d : Dscache) :
    (d.root = none → d.createNewEnabled = true → act.profileID.length ≠ 46 →
      updateInitDataset d act = (d, some DsErr.invalidProfileID)) ∧
    (d.root = none → d.createNewEnabled = false →
      updateInitDataset d act = (d, none)) ∧
    (∀ root, d.root = some root →
      (updateInitDataset d act).2 = none ∧
      ((updateInitDataset d act).1.root.map fun r => r.refs.length) =
        some (root.users.length + 1) ∧
      ((updateInitDataset d act).1.root.map fun r => r.refs.getLast?) =
        some (some (addDsVersionInfo
          { initID := act.initID, profileID := act.profileID, name := act.name }))) := by
  refine ⟨?_, ?_, ?_⟩
  · intro h hc hlen
    have hv : validateProfileID act.profileID = false := by
      simp [validateProfileID, lengthOfProfileID, hlen]
    simp [updateInitDataset, h, hc, hv]
  · intro h hc
    simp [updateInitDataset, h, hc]
  · intro root h
    refine ⟨by simp [updateInitDataset, h], ?_, ?_⟩
    · simp [updateInitDataset, h]
    · simp [updateInitDataset, h, List.getLast?_concat]

/-- Witness for C7 amended, at an empty cache with CreateNewEnabled and
the length-5 ProfileID "short". -/
theorem updateInitDataset_validation_only_on_create_witness :
    updateInitDataset { createNewEnabled := true } initActBadProfile =
      ({ createNewEnabled := true }, some DsErr.invalidProfileID) :=
  (updateInitDataset_validation_only_on_create initActBadProfile
    { createNewEnabled := true }).1 rfl rfl (by decide)

/-- Fixture: a dscache that saves to the file "dscache.qfb". -/
def cacheWithFile : Dscache := { cacheOneRef with filename := "dscache.qfb" }

/-- The spec's "write-to-temp + rename" persistence shape: a write of a
temporary file followed by a rename of it over the target. -/
def atomicTempRenameShape (ops : List FsOp) (target : String) : Prop :=
  ∃ tmp, tmp ≠ target ∧ ops = [FsOp.write tmp, FsOp.rename tmp target]

/-- **C9 counterexample.** The claim says each mutation persists the
new buffer atomically by writing a temporary file and renaming it over
the cache file. The source's `save` is a single `ioutil.WriteFile` of
the cache filename itself: after a commit mutation the filesystem
actions are exactly one direct write of "dscache.qfb", which is not of
the write-temp-then-rename shape. -/
theorem dscache_save_is_direct_write :
    Dscache.saveOps ((handler none cacheWithFile (commitEvent commitActI1)).1) =
      [FsOp.write "dscache.qfb"] ∧
    ¬ atomicTempRenameShape
        (Dscache.saveOps ((handler none cacheWithFile (commitEvent commitActI1)).1))
        "dscache.qfb" := by
  refine ⟨rfl, ?_⟩
  rintro ⟨tmp, hne, heq⟩
  rw [show Dscache.saveOps ((handler none cacheWithFile (commitEvent commitActI1)).1) =
      [FsOp.write "dscache.qfb"] from rfl] at heq
  simp at heq

/-- **C9 amended.** Each mutation persists the new buffer with a single
direct WriteFile of the cache file (no temporary file, no rename), and
a failure to persist never makes the event handler report an error to
its caller: for every persist outcome, cache state and event, the
handler returns nil. -/
theorem handler_swallows_persist_failure (pe : Option DsErr) (d : Dscache)
    (e : Event) :
    (handler pe d e).2 = none ∧
    ((handler pe d e).1.filename ≠ "" →
      Dscache.saveOps (handler pe d e).1 =
        [FsOp.write (handler pe d e).1.filename]) := by
  constructor
  · rcases e with ⟨t, p⟩
    cases t <;> cases p <;> rfl
  · intro h
    simp [Dscache.saveOps, h]

/-- Witness for C9 amended: a failing disk write after a commit event
on a file-backed dscache; the handler still returns nil and the save
action is the single direct write. -/
theorem handler_swallows_persist_failure_witness :
    (handler (some (DsErr.other "disk full")) cacheWithFile
      (commitEvent commitActI1)).2 = none ∧
    Dscache.saveOps (handler (some (DsErr.other "disk full")) cacheWithFile
        (commitEvent commitActI1)).1 =
      [FsOp.write (handler (some (DsErr.other "disk full")) cacheWithFile
        (commitEvent commitActI1)).1.filename] :=
  ⟨(handler_swallows_persist_failure (some (DsErr.other "disk full"))
      cacheWithFile (commitEvent commitActI1)).1,
   (handler_swallows_persist_failure (some (DsErr.other "disk full"))
      cacheWithFile (commitEvent commitActI1)).2 (by decide)⟩

/-- **C6.** Handling ETDatasetDeleteAll on a non-empty dscache rebuilds
the buffer keeping the users list and every entry whose InitID differs
from the payload, omitting the matching entry; a subsequent dscache
ResolveRef for that InitID then fails with ErrRefNotFound. -/
theorem updateDeleteDataset_omits_entry (pe : Option DsErr) (d : Dscache)
    (root : DscacheRoot) (iid : String) (ref : Ref)
    (h : d.root = some root) (hiid : iid ≠ "") (href : ref.initID = iid) :
    ((handler pe d (deleteEvent iid)).1).root = some
      ⟨root.users, root.refs.filter fun r => r.initID != iid⟩ ∧
    Dscache.resolveRef (some ((handler pe d (deleteEvent iid)).1)) ref =
      Except.error DsErr.refNotFound := by
  have hstate : (handler pe d (deleteEvent iid)).1 =
      { d with root := some ⟨root.users, root.refs.filter fun r => r.initID != iid⟩ } := by
    simp [handler, deleteEvent, updateDeleteDataset, h]
  refine ⟨by rw [hstate], ?_⟩
  rw [hstate]
  have hfalse : List.find? (fun _ : RefEntryInfo => false) root.refs = none := by
    rw [List.find?_eq_none]
    intro x hx
    simp
  simp [Dscache.resolveRef, href, hiid, completeRef, hfalse]

/-- Fixture: a dscache listing the two datasets i1 and i2, backing the
C6 witness. -/
def cacheI1I2 : Dscache :=
  { root := some ⟨[⟨"alice", pid46⟩],
      [{ initID := "i1", profileID := pid46, prettyName := "world_bank" },
       { initID := "i2", profileID := pid46, prettyName := "census" }]⟩ }

/-- Witness for C6: deleting i1 from the two-dataset cache keeps
exactly the i2 entry and makes ResolveRef on i1 fail with
ErrRefNotFound. -/
theorem updateDeleteDataset_omits_entry_witness :
    cacheI1I2.root = some
      ⟨[⟨"alice", pid46⟩],
       [{ initID := "i1", profileID := pid46, prettyName := "world_bank" },
        { initID := "i2", profileID := pid46, prettyName := "census" }]⟩ ∧
    ("i1" : String) ≠ "" ∧
    (((handler none cacheI1I2 (deleteEvent "i1")).1).root = some
        ⟨[⟨"alice", pid46⟩],
         [{ initID := "i2", profileID := pid46, prettyName := "census" }]⟩ ∧
     Dscache.resolveRef (some ((handler none cacheI1I2 (deleteEvent "i1")).1))
        { initID := "i1" } = Except.error DsErr.refNotFound) := by
  refine ⟨rfl, by decide, ?_⟩
  have h := updateDeleteDataset_omits_entry none cacheI1I2
    ⟨[⟨"alice", pid46⟩],
     [{ initID := "i1", profileID := pid46, prettyName := "world_bank" },
      { initID := "i2", profileID := pid46, prettyName := "census" }]⟩
    "i1" { initID := "i1" } rfl (by decide) rfl
  refine ⟨?_, h.2⟩
  rw [h.1]
  rfl

/-- Fixture: a deployed (Active) workflow. -/
def wfA : Workflow.Workflow := { id := "1", initID := "d1", ownerID := "p", active := true }

/-- **C8.** The workflow listing contract: limit -1 returns all stored
items (for List) and all Active items (for ListDeployed); limit 0
returns an empty list; an offset at or past the end returns an empty
list without error; a limit below -1 fails with exactly
"limit of <n> is out of bounds"; a negative offset fails with exactly
"offset of <n> is out of bounds". -/
theorem listStore_bounds (items : List Workflow.Workflow) (off lim : Int) :
    (Workflow.listStore items 0 (-1) = Except.ok items) ∧
    (Workflow.listDeployed items 0 (-1) =
      Except.ok (items.filter fun w => w.active)) ∧
    (0 ≤ off →
      Workflow.listStore items off 0 = Except.ok [] ∧
      Workflow.listDeployed items off 0 = Except.ok []) ∧
    (0 ≤ off → (items.length : Int) ≤ off → -1 ≤ lim →
      Workflow.listStore items off lim = Except.ok []) ∧
    (lim < -1 →
      Workflow.listStore items off lim =
        Except.error ("limit of " ++ toString lim ++ " is out of bounds") ∧
      Workflow.listDeployed items off lim =
        Except.error ("limit of " ++ toString lim ++ " is out of bounds")) ∧
    (-1 ≤ lim → off < 0 →
      Workflow.listStore items off lim =
        Except.error ("offset of " ++ toString off ++ " is out of bounds") ∧
      Workflow.listDeployed items off lim =
        Except.error ("offset of " ++ toString off ++ " is out of bounds")) := by
  refine ⟨?_, ?_, ?_, ?_, ?_, ?_⟩
  · simp [Workflow.listStore, Workflow.listWithOffsetLimit]
  · simp [Workflow.listDeployed, Workflow.listWithOffsetLimit]
  · intro h0
    constructor <;>
      simp [Workflow.listStore, Workflow.listDeployed, Workflow.listWithOffsetLimit,
        if_neg (not_lt.mpr h0)]
  · intro h0 hlen hlim
    have hdrop : items.drop off.toNat = [] := by
      apply List.drop_eq_nil_of_le
      omega
    unfold Workflow.listStore Workflow.listWithOffsetLimit
    rw [if_neg (by omega), if_neg (by omega)]
    by_cases hl : lim = -1
    · simp [hl, hdrop]
    · rw [if_neg hl, hdrop]
      simp
  · intro hlim
    constructor <;>
      simp [Workflow.listStore, Workflow.listDeployed, Workflow.listWithOffsetLimit,
        if_pos hlim]
  · intro hlim hoff
    constructor <;>
      simp [Workflow.listStore, Workflow.listDeployed, Workflow.listWithOffsetLimit,
        if_neg (by omega : ¬ lim < -1), if_pos hoff]

/-- Witness for C8 at the one-workflow store, exercising limit -1,
an offset past the end, limit 0, limit -10 and offset -1. -/
theorem listStore_bounds_witness :
    Workflow.listStore [wfA] 0 (-1) = Except.ok [wfA] ∧
    Workflow.listStore [wfA] 100 (-1) = Except.ok [] ∧
    Workflow.listStore [wfA] 0 0 = Except.ok [] ∧
    Workflow.listStore [wfA] 0 (-10) =
      Except.error "limit of -10 is out of bounds" ∧
    Workflow.listStore [wfA] (-1) 0 =
      Except.error "offset of -1 is out of bounds" :=
  ⟨(listStore_bounds [wfA] 0 0).1,
   (listStore_bounds [wfA] 100 (-1)).2.2.2.1 (by decide) (by decide) (by decide),
   ((listStore_bounds [wfA] 0 0).2.2.1 (by decide)).1,
   ((listStore_bounds [wfA] 0 (-10)).2.2.2.2.1 (by decide)).1,
   ((listStore_bounds [wfA] (-1) 0).2.2.2.2.2 (by decide) (by decide)).1⟩

end Qri
